import Mathlib

/-!
Shallow embedding of the forecasting and anomaly-scoring core of the
wesdom-screen dashboard backend (src/api/src/predictor.py,
src/api/src/data_processor.py and the scoring endpoints of src/api/app.py).

Machine floats are modelled as real numbers.  The per-step Gaussian noise
drawn by `np.random.normal(0, std_dev * 0.1, steps)` is modelled by a noise
parameter `noise : Nat -> Real` scaled by `std_dev * 0.1`, which is the
scaling property of the normal distribution (scale 0 yields exactly 0).
Division by zero follows the Lean convention `x / 0 = 0`; every place where the
source divides is guarded in the source by a positivity test, which the
embedding reproduces, so the convention is never load-bearing except where
noted (pandas `.std()` of a single observation yields NaN, which fails the
`std > 0` guard exactly as our 0 does).
-/

namespace WesdomScreen

/-- Arithmetic mean of a list of values (`np.mean` / pandas `.mean()`).
Empty list yields 0 (sum 0 divided by length 0). -/
noncomputable def mean (l : List ℝ) : ℝ := l.sum / l.length

/-- Population standard deviation, `np.std`: square root of the mean of
squared deviations from the mean (ddof = 0). -/
noncomputable def popStd (l : List ℝ) : ℝ :=
  Real.sqrt (mean (l.map (fun v => (v - mean l) ^ 2)))

/-- Sample standard deviation, pandas `.std()` (ddof = 1): square root of the
sum of squared deviations divided by `n - 1`.  For a single observation the
source yields NaN (which fails every `> 0` guard); here `n - 1 = 0` makes the
quotient 0, failing the same guards. -/
noncomputable def sampleStd (l : List ℝ) : ℝ :=
  Real.sqrt ((l.map (fun v => (v - mean l) ^ 2)).sum / ((l.length : ℝ) - 1))

/-- Slope of the degree-1 least-squares fit of `values` against indices
`0 .. n-1` (`np.polyfit(np.arange(n), values, 1)`), in covariance form:
`sum (x_i - xbar) * (y_i - ybar) / sum (x_i - xbar)^2`. -/
noncomputable def fitSlope (values : List ℝ) : ℝ :=
  let n := values.length
  let xbar : ℝ := (∑ i ∈ Finset.range n, (i : ℝ)) / n
  let ybar := mean values
  (∑ i ∈ Finset.range n, ((i : ℝ) - xbar) * (values.getD i 0 - ybar)) /
    ∑ i ∈ Finset.range n, ((i : ℝ) - xbar) ^ 2

/-- Intercept of the same least-squares fit: `ybar - slope * xbar`. -/
noncomputable def fitIntercept (values : List ℝ) : ℝ :=
  let n := values.length
  let xbar : ℝ := (∑ i ∈ Finset.range n, (i : ℝ)) / n
  mean values - fitSlope values * xbar

/-- Residuals of the linear fit: `y - p(x)` at each observed index. -/
noncomputable def residuals (values : List ℝ) : List ℝ :=
  (List.range values.length).map
    (fun i => values.getD i 0 - (fitSlope values * i + fitIntercept values))

/-- The fields of the forecast response that the claims of the specification are
about (`point_name`, `dates` and the cosmetic two-model decomposition
diagnostics carry no further numeric content and are omitted).
`std_dev` records `fusion_details.uncertainty_std`. -/
structure ForecastResult where
  history : List ℝ
  predictions : List ℝ
  confidence_upper : List ℝ
  confidence_lower : List ℝ
  std_dev : ℝ

/-- `FusionPredictor.predict` (predictor.py lines 27-124) on an ordered value
series: refuse series shorter than 5; otherwise fit a linear trend, take the
population standard deviation of its residuals, extrapolate over future
indices `n .. n+steps-1`, add a 30-sample sinusoid of amplitude
`0.5 * std_dev` (floored at the constant 0.1 when `std_dev` is 0) and
per-step noise `std_dev * 0.1 * noise i`, and put a `+- 1.96 * std_dev` band
around the result.  `history` is `values.tolist()[-30:]`. -/
noncomputable def predict (noise : ℕ → ℝ) (values : List ℝ) (steps : ℕ) :
    Except String ForecastResult :=
  if values.length < 5 then .error "Not enough data"
  else
    let n := values.length
    let a := fitSlope values
    let b := fitIntercept values
    let std_dev := popStd (residuals values)
    let amplitude := if std_dev > 0 then std_dev * 0.5 else 0.1
    let futureY : List ℝ := (List.range steps).map (fun i =>
      let x : ℝ := ((n + i : ℕ) : ℝ)
      (a * x + b) + amplitude * Real.sin (2 * Real.pi * x / 30) +
        std_dev * 0.1 * noise i)
    .ok
      { history := values.drop (values.length - 30)
        predictions := futureY
        confidence_upper := futureY.map (fun y => y + 1.96 * std_dev)
        confidence_lower := futureY.map (fun y => y - 1.96 * std_dev)
        std_dev := std_dev }

/-- Result of `FusionPredictor.predict_current` (predictor.py lines 131-154). -/
structure CurrentPrediction where
  residual : ℝ
  uncertainty : ℝ

/-- `FusionPredictor.predict_current` on the fetched value series of the point:
`None` when fewer than 5 observations; otherwise the residual is the absolute
difference between the latest value and the mean of all values but the last
(`np.mean(values[:-1])`), and the uncertainty is `np.std(values)` replaced by
0.1 when it is not positive. -/
noncomputable def predict_current (values : List ℝ) : Option CurrentPrediction :=
  if values.length < 5 then none
  else
    let latest := values.getLastD 0
    let mean_val := mean values.dropLast
    let u := popStd values
    some { residual := |latest - mean_val|
           uncertainty := if u > 0 then u else 0.1 }

/-- Anomaly severity grades emitted by the sweep (app.py). -/
inductive Severity where
  | high
  | medium
  | low
deriving DecidableEq

/-- Severity classification of a combined score (app.py lines 524-531):
strictly-greater cut points at 3, 2 and 1.5; at or below 1.5 the point is not
an anomaly. -/
noncomputable def severityOf (s : ℝ) : Option Severity :=
  if s > 3 then some .high
  else if s > 2 then some .medium
  else if s > 1.5 then some .low
  else none

/-- Numeric severity rank with none = 0 < low = 1 < medium = 2 < high = 3,
used to state monotonicity of the classification. -/
def severityLevel : Option Severity → ℕ
  | none => 0
  | some .low => 1
  | some .medium => 2
  | some .high => 3

/-- The sort key mapping of app.py line 589: high to 0, medium to 1, low to 2. -/
def sortKey : Severity → ℕ
  | .high => 0
  | .medium => 1
  | .low => 2

/-- Statistical deviation score of the series of a point in the sweep
(app.py lines 502-510): over the trailing-30 window, the absolute z-score of
the latest value when the sample standard deviation of the window is positive,
else 0. -/
noncomputable def statsScore (values : List ℝ) : ℝ :=
  let window := values.drop (values.length - 30)
  let std_val := sampleStd window
  if std_val > 0 then |(window.getLastD 0 - mean window) / std_val| else 0

/-- Model-based score in the sweep (app.py lines 512-518): when
`predict_current` yields a result, `residual / uncertainty`, else 0 (also on
any exception). -/
noncomputable def aiScore (cur : List ℝ) : ℝ :=
  match predict_current cur with
  | some p => p.residual / p.uncertainty
  | none => 0

/-- `final_score = max(stats_score, ai_score)` (app.py line 520).  `values`
is the series of the point in the bulk 14-day fetch; `cur` is the separate
limit-20 fetch that `predict_current` performs. -/
noncomputable def combinedScore (values cur : List ℝ) : ℝ :=
  max (statsScore values) (aiScore cur)

/-- One anomaly verdict of the sweep response (app.py lines 533-542;
`measure_time` and the `type` string of the point are presentation fields carrying
no logic and are omitted). -/
structure Anomaly where
  point_name : String
  current_value : ℝ
  mean : ℝ
  std : ℝ
  z_score : ℝ
  severity : Severity

/-- Per-point body of the sweep loop (app.py lines 496-542): skip points with
fewer than 5 readings; otherwise score the trailing-30 window and emit a
verdict exactly when the severity classification fires. -/
noncomputable def sweepPoint (name : String) (values cur : List ℝ) :
    Option Anomaly :=
  if values.length < 5 then none
  else
    let window := values.drop (values.length - 30)
    let final := combinedScore values cur
    match severityOf final with
    | some sev =>
        some { point_name := name
               current_value := window.getLastD 0
               mean := mean window
               std := sampleStd window
               z_score := final
               severity := sev }
    | none => none

/-- Ordering used to sort the verdict list: ascending sort key
(high before medium before low). -/
def bySeverityRank (a b : Anomaly) : Prop := sortKey a.severity ≤ sortKey b.severity

instance : DecidableRel bySeverityRank := fun a b =>
  inferInstanceAs (Decidable (sortKey a.severity ≤ sortKey b.severity))

instance : IsTotal Anomaly bySeverityRank :=
  ⟨fun a b => Nat.le_total (sortKey a.severity) (sortKey b.severity)⟩

instance : IsTrans Anomaly bySeverityRank :=
  ⟨fun _ _ _ h h2 => Nat.le_trans h h2⟩

/-- Aggregate shape of the sweep response (app.py lines 592-604). -/
structure SweepResult where
  anomalies : List Anomaly
  total_anomalies : ℕ
  by_severity_high : ℕ
  by_severity_medium : ℕ
  by_severity_low : ℕ

/-- The `/api/anomaly_detection` sweep over a fleet of points, each given as
(name, bulk-fetched series, limit-20 series for `predict_current`): collect
the per-point verdicts, sort them ascending by severity rank (a stable sort,
as the Python list sort), and aggregate counts per severity from the sorted
list (app.py lines 496-604). -/
noncomputable def detectAnomalies (pts : List (String × List ℝ × List ℝ)) :
    SweepResult :=
  let raw := pts.filterMap (fun p => sweepPoint p.1 p.2.1 p.2.2)
  let sorted := raw.insertionSort bySeverityRank
  { anomalies := sorted
    total_anomalies := sorted.length
    by_severity_high := (sorted.filter (fun a => a.severity = .high)).length
    by_severity_medium := (sorted.filter (fun a => a.severity = .medium)).length
    by_severity_low := (sorted.filter (fun a => a.severity = .low)).length }

/-- The four UI states of the realtime-status view. -/
inductive Status where
  | offline
  | normal
  | warning
  | danger
deriving DecidableEq

/-- Per-point body of `/api/realtime_status` (app.py lines 414-447): a point
with no readings is `offline`; otherwise the status defaults to `normal` and
is upgraded by the plain z-score of the latest value over all readings of the
point — computed only when there are at least 5 readings and the sample
standard deviation is positive — with `z > 3` giving `danger` and `z > 1.5`
giving `warning`.  No model-based term occurs. -/
noncomputable def realtimeStatus (values : List ℝ) : Status :=
  if values.length = 0 then .offline
  else if 5 ≤ values.length then
    let std_val := sampleStd values
    if std_val > 0 then
      let z := |(values.getLastD 0 - mean values) / std_val|
      if z > 3 then .danger
      else if z > 1.5 then .warning
      else .normal
    else .normal
  else .normal

/-- The realtime-status state machine as the specification words it: offline
on no data, else classify the absolute z-score of the latest reading against
the cut points 3 and 1.5 (z taken as 0 when the standard deviation vanishes,
where the quotient is 0 by convention). -/
noncomputable def realtimeStatusSpec (values : List ℝ) : Status :=
  if values.length = 0 then .offline
  else
    let z := |(values.getLastD 0 - mean values) / sampleStd values|
    if z > 3 then .danger
    else if z > 1.5 then .warning
    else .normal

/-- `DataProcessor.get_point_data` (data_processor.py lines 44-80) against a
store mapping point names to their full ascending reading series: an unknown
point yields the empty series (never an error); a known point yields its most
recent `limit` readings in ascending order (the source queries descending
with `limit` and re-sorts ascending). -/
def get_point_data (store : List (String × List ℝ)) (name : String)
    (limit : ℕ) : List ℝ :=
  match store.lookup name with
  | some vs => vs.drop (vs.length - limit)
  | none => []

/-- Closed form of the forecast on a constant series of length `n ≥ 5`:
zero residual deviation, so the noise term vanishes and the band collapses
onto the predictions, while the seasonal amplitude falls back to its 0.1
floor. -/
noncomputable def constForecast (n : ℕ) (v : ℝ) (steps : ℕ) : ForecastResult :=
  { history := (List.replicate n v).drop (n - 30)
    predictions := (List.range steps).map
      (fun i => v + 0.1 * Real.sin (2 * Real.pi * ((n + i : ℕ) : ℝ) / 30))
    confidence_upper := (List.range steps).map
      (fun i => v + 0.1 * Real.sin (2 * Real.pi * ((n + i : ℕ) : ℝ) / 30))
    confidence_lower := (List.range steps).map
      (fun i => v + 0.1 * Real.sin (2 * Real.pi * ((n + i : ℕ) : ℝ) / 30))
    std_dev := 0 }

/-! ### Helper lemmas -/

lemma popStd_nonneg (l : List ℝ) : 0 ≤ popStd l := Real.sqrt_nonneg _

lemma sampleStd_nonneg (l : List ℝ) : 0 ≤ sampleStd l := Real.sqrt_nonneg _

lemma statsScore_nonneg (values : List ℝ) : 0 ≤ statsScore values := by
  unfold statsScore
  dsimp only
  split
  · exact abs_nonneg _
  · exact le_refl 0

lemma mean_replicate (n : ℕ) (v : ℝ) (h : n ≠ 0) :
    mean (List.replicate n v) = v := by
  unfold mean
  rw [List.sum_replicate, nsmul_eq_mul, List.length_replicate]
  exact mul_div_cancel_left₀ v (Nat.cast_ne_zero.mpr h)

lemma mean_replicate_zero (n : ℕ) : mean (List.replicate n (0:ℝ)) = 0 := by
  unfold mean
  rw [List.sum_replicate]
  simp

lemma popStd_replicate_zero (n : ℕ) : popStd (List.replicate n (0:ℝ)) = 0 := by
  unfold popStd
  rw [mean_replicate_zero, List.map_replicate]
  norm_num [mean_replicate_zero]

lemma getD_replicate_of_lt (n i : ℕ) (v : ℝ) (h : i < n) :
    (List.replicate n v).getD i 0 = v := by
  rw [List.getD_eq_getElem?_getD]
  simp [List.getElem?_replicate, h]

lemma getD_map_of_lt (f : ℝ → ℝ) (l : List ℝ) (i : ℕ) (h : i < l.length) :
    (l.map f).getD i 0 = f (l.getD i 0) := by
  rw [List.getD_eq_getElem?_getD, List.getD_eq_getElem?_getD]
  simp [List.getElem?_map, List.getElem?_eq_getElem h]

lemma fitSlope_replicate (n : ℕ) (v : ℝ) : fitSlope (List.replicate n v) = 0 := by
  rcases eq_or_ne n 0 with h | h
  · subst h; simp [fitSlope]
  · have hnum : ∀ x : ℝ, (∑ i ∈ Finset.range n,
        ((i : ℝ) - x) * ((List.replicate n v).getD i 0 - mean (List.replicate n v)))
        = 0 := by
      intro x
      apply Finset.sum_eq_zero
      intro i hi
      rw [getD_replicate_of_lt n i v (Finset.mem_range.mp hi),
        mean_replicate n v h, sub_self, mul_zero]
    simp only [fitSlope, List.length_replicate]
    rw [hnum, zero_div]

lemma fitIntercept_replicate (n : ℕ) (v : ℝ) (h : n ≠ 0) :
    fitIntercept (List.replicate n v) = v := by
  simp only [fitIntercept, List.length_replicate, fitSlope_replicate, zero_mul,
    sub_zero, mean_replicate n v h]

lemma residuals_replicate (n : ℕ) (v : ℝ) (h : n ≠ 0) :
    residuals (List.replicate n v) = List.replicate n 0 := by
  apply List.eq_replicate_iff.mpr
  refine ⟨by simp [residuals], ?_⟩
  intro b hb
  simp only [residuals, List.length_replicate, List.mem_map, List.mem_range] at hb
  obtain ⟨i, hi, hb⟩ := hb
  rw [← hb, fitSlope_replicate, fitIntercept_replicate n v h, zero_mul, zero_add,
    getD_replicate_of_lt n i v hi, sub_self]

lemma predict_replicate_eval (noise : ℕ → ℝ) (n : ℕ) (v : ℝ) (steps : ℕ)
    (h : 5 ≤ n) :
    predict noise (List.replicate n v) steps = .ok (constForecast n v steps) := by
  have hn0 : n ≠ 0 := by omega
  unfold predict constForecast
  rw [List.length_replicate, if_neg (by omega)]
  simp only [fitSlope_replicate, fitIntercept_replicate n v hn0,
    residuals_replicate n v hn0, popStd_replicate_zero, List.length_replicate]
  norm_num

/-! ### Claim theorems -/

/-- C1 (amended): for every constant series of length at least 5 the forecast
has `std_dev = 0` and the noise term vanishes, and the confidence band
collapses onto the predictions (`confidence_upper = confidence_lower =
predictions`); but the predictions are not the constant `v`: the seasonal
amplitude falls back to its 0.1 floor, so step `i` predicts
`v + 0.1 * sin (2 * pi * (n + i) / 30)`. -/
theorem constant_series_forecast (noise : ℕ → ℝ) (n : ℕ) (v : ℝ) (steps : ℕ)
    (h : 5 ≤ n) :
    predict noise (List.replicate n v) steps = .ok (constForecast n v steps) ∧
    (constForecast n v steps).std_dev = 0 ∧
    (constForecast n v steps).confidence_upper = (constForecast n v steps).predictions ∧
    (constForecast n v steps).confidence_lower = (constForecast n v steps).predictions ∧
    (constForecast n v steps).predictions = (List.range steps).map
      (fun i => v + 0.1 * Real.sin (2 * Real.pi * ((n + i : ℕ) : ℝ) / 30)) :=
  ⟨predict_replicate_eval noise n v steps h, rfl, rfl, rfl, rfl⟩

/-- C1 witness: the theorem instantiated at the constant series
`[10,10,10,10,10]` with three forecast steps. -/
theorem constant_series_forecast_witness :
    5 ≤ 5 ∧
    (predict (fun _ => 0) (List.replicate 5 (10:ℝ)) 3 = .ok (constForecast 5 10 3) ∧
     (constForecast 5 (10:ℝ) 3).std_dev = 0 ∧
     (constForecast 5 (10:ℝ) 3).confidence_upper = (constForecast 5 10 3).predictions ∧
     (constForecast 5 (10:ℝ) 3).confidence_lower = (constForecast 5 10 3).predictions ∧
     (constForecast 5 (10:ℝ) 3).predictions = (List.range 3).map
       (fun i => 10 + 0.1 * Real.sin (2 * Real.pi * ((5 + i : ℕ) : ℝ) / 30))) :=
  ⟨by norm_num, constant_series_forecast (fun _ => 0) 5 10 3 (by norm_num)⟩

/-- C1 counterexample: on the spec scenario series `[10,10,10,10,10]` with
one forecast step the prediction is `10 + sqrt 3 / 20`, not `10`: the claim
that every prediction entry equals the constant (and that the band collapses
to `[v, v]`) is false on the code, because the seasonal amplitude is floored
at 0.1 when `std_dev` is 0. -/
theorem constant_series_claim_counterexample :
    predict (fun _ => 0) [10,10,10,10,10] 1 = .ok
      { history := [10,10,10,10,10]
        predictions := [10 + Real.sqrt 3 / 20]
        confidence_upper := [10 + Real.sqrt 3 / 20]
        confidence_lower := [10 + Real.sqrt 3 / 20]
        std_dev := 0 } ∧
    (10 : ℝ) + Real.sqrt 3 / 20 ≠ 10 := by
  have hrepl : (List.replicate 5 (10:ℝ)) = [10,10,10,10,10] := rfl
  have hsqrt3 : (0:ℝ) < Real.sqrt 3 := Real.sqrt_pos.mpr (by norm_num)
  constructor
  · have h := predict_replicate_eval (fun _ => 0) 5 10 1 (le_refl 5)
    rw [hrepl] at h
    rw [h]
    unfold constForecast
    rw [hrepl]
    have harg : 2 * Real.pi * ((5 + 0 : ℕ) : ℝ) / 30 = Real.pi / 3 := by
      push_cast
      ring
    simp only [List.range_succ, List.range_zero, List.nil_append, List.map_cons,
      List.map_nil, harg, Real.sin_pi_div_three]
    norm_num
    ring
  · intro heq
    have : Real.sqrt 3 / 20 = 0 := by linarith
    linarith

/-- C2: on any series with fewer than 5 observations (the empty series
included) the forecast fails with the insufficient-data error, and the
anomaly sweep skips the point, emitting no verdict and no error
(`predict_current` likewise yields no result). -/
theorem insufficient_data_behavior (noise : ℕ → ℝ) (values cur : List ℝ)
    (steps : ℕ) (name : String) (h : values.length < 5) :
    predict noise values steps = .error "Not enough data" ∧
    sweepPoint name values cur = none ∧
    predict_current values = none := by
  refine ⟨?_, ?_, ?_⟩
  · unfold predict
    rw [if_pos h]
  · unfold sweepPoint
    rw [if_pos h]
  · unfold predict_current
    rw [if_pos h]

/-- C2 witness: the theorem instantiated at the three-element series
`[1,2,3]`. -/
theorem insufficient_data_behavior_witness :
    ([1,2,3] : List ℝ).length < 5 ∧
    (predict (fun _ => 0) [1,2,3] 7 = .error "Not enough data" ∧
     sweepPoint "PT01" [1,2,3] [] = none ∧
     predict_current [1,2,3] = none) :=
  ⟨by norm_num, insufficient_data_behavior (fun _ => 0) [1,2,3] [] 7 "PT01" (by norm_num)⟩

/-- C3: in every successful forecast the confidence band is
`prediction +- 1.96 * std_dev` at every step, the band width
`2 * 1.96 * std_dev` is the same at every horizon, and therefore
`confidence_lower[i] <= predictions[i] <= confidence_upper[i]`. -/
theorem confidence_band_formula (noise : ℕ → ℝ) (values : List ℝ) (steps : ℕ)
    (r : ForecastResult) (hlen : 5 ≤ values.length) (hsteps : 0 < steps)
    (hr : predict noise values steps = .ok r) :
    ∀ i, i < steps →
      r.confidence_upper.getD i 0 = r.predictions.getD i 0 + 1.96 * r.std_dev ∧
      r.confidence_lower.getD i 0 = r.predictions.getD i 0 - 1.96 * r.std_dev ∧
      r.confidence_upper.getD i 0 - r.confidence_lower.getD i 0
        = 2 * (1.96 * r.std_dev) ∧
      r.confidence_lower.getD i 0 ≤ r.predictions.getD i 0 ∧
      r.predictions.getD i 0 ≤ r.confidence_upper.getD i 0 := by
  unfold predict at hr
  rw [if_neg (Nat.not_lt.mpr hlen)] at hr
  dsimp only at hr
  injection hr with hr
  subst hr
  intro i hi
  dsimp only
  have hσ : 0 ≤ popStd (residuals values) := popStd_nonneg _
  have hil : i < ((List.range steps).map (fun i =>
      fitSlope values * ((values.length + i : ℕ) : ℝ) + fitIntercept values +
        (if popStd (residuals values) > 0 then popStd (residuals values) * 0.5
          else 0.1) *
          Real.sin (2 * Real.pi * ((values.length + i : ℕ) : ℝ) / 30) +
        popStd (residuals values) * 0.1 * noise i)).length := by
    simpa using hi
  rw [getD_map_of_lt _ _ _ hil, getD_map_of_lt _ _ _ hil]
  refine ⟨rfl, rfl, by ring, by linarith, by linarith⟩

/-- C3 witness: the theorem instantiated at the constant series of five 10s
with one step, at horizon index 0. -/
theorem confidence_band_formula_witness :
    (5 ≤ (List.replicate 5 (10:ℝ)).length ∧ 0 < 1 ∧ (0:ℕ) < 1) ∧
    ((constForecast 5 (10:ℝ) 1).confidence_upper.getD 0 0
        = (constForecast 5 10 1).predictions.getD 0 0 + 1.96 * (constForecast 5 10 1).std_dev ∧
      (constForecast 5 (10:ℝ) 1).confidence_lower.getD 0 0
        = (constForecast 5 10 1).predictions.getD 0 0 - 1.96 * (constForecast 5 10 1).std_dev ∧
      (constForecast 5 (10:ℝ) 1).confidence_upper.getD 0 0
          - (constForecast 5 10 1).confidence_lower.getD 0 0
        = 2 * (1.96 * (constForecast 5 10 1).std_dev) ∧
      (constForecast 5 (10:ℝ) 1).confidence_lower.getD 0 0
        ≤ (constForecast 5 10 1).predictions.getD 0 0 ∧
      (constForecast 5 (10:ℝ) 1).predictions.getD 0 0
        ≤ (constForecast 5 10 1).confidence_upper.getD 0 0) :=
  ⟨⟨by norm_num, by norm_num, by norm_num⟩,
    confidence_band_formula (fun _ => 0) (List.replicate 5 10) 1
      (constForecast 5 10 1) (by norm_num) (by norm_num)
      (predict_replicate_eval (fun _ => 0) 5 10 1 (by norm_num)) 0 (by norm_num)⟩

/-- C4: every successful forecast returns `predictions`, `confidence_upper`
and `confidence_lower` of length exactly `steps`, and `history` is the
trailing at-most-30-element suffix of the observed series. -/
theorem forecast_result_lengths (noise : ℕ → ℝ) (values : List ℝ) (steps : ℕ)
    (r : ForecastResult) (hlen : 5 ≤ values.length) (hsteps : 0 < steps)
    (hr : predict noise values steps = .ok r) :
    r.predictions.length = steps ∧
    r.confidence_upper.length = steps ∧
    r.confidence_lower.length = steps ∧
    r.history.length = min 30 values.length ∧
    List.IsSuffix r.history values := by
  unfold predict at hr
  rw [if_neg (Nat.not_lt.mpr hlen)] at hr
  dsimp only at hr
  injection hr with hr
  subst hr
  refine ⟨by simp, by simp, by simp, ?_, List.drop_suffix _ _⟩
  dsimp only
  rw [List.length_drop]
  omega

/-- C4 witness: the theorem instantiated at the constant series of five 10s
with one step. -/
theorem forecast_result_lengths_witness :
    (5 ≤ (List.replicate 5 (10:ℝ)).length ∧ (0:ℕ) < 1) ∧
    ((constForecast 5 (10:ℝ) 1).predictions.length = 1 ∧
      (constForecast 5 (10:ℝ) 1).confidence_upper.length = 1 ∧
      (constForecast 5 (10:ℝ) 1).confidence_lower.length = 1 ∧
      (constForecast 5 (10:ℝ) 1).history.length
        = min 30 (List.replicate 5 (10:ℝ)).length ∧
      List.IsSuffix (constForecast 5 (10:ℝ) 1).history (List.replicate 5 10)) :=
  ⟨⟨by norm_num, by norm_num⟩,
    forecast_result_lengths (fun _ => 0) (List.replicate 5 10) 1
      (constForecast 5 10 1) (by norm_num) (by norm_num)
      (predict_replicate_eval (fun _ => 0) 5 10 1 (by norm_num))⟩

/-- C5: the severity classification is exactly the strictly-greater cut
points: `> 3` high, `> 2` medium, `> 1.5` low, `<= 1.5` no anomaly (the sweep
emits no verdict); and the severity level (none = 0 < low < medium < high) is
monotone non-decreasing in the combined score. -/
theorem severity_classification :
    (∀ s : ℝ,
      (severityOf s = some Severity.high ↔ 3 < s) ∧
      (severityOf s = some Severity.medium ↔ 2 < s ∧ s ≤ 3) ∧
      (severityOf s = some Severity.low ↔ 1.5 < s ∧ s ≤ 2) ∧
      (severityOf s = none ↔ s ≤ 1.5)) ∧
    (∀ s t : ℝ, s ≤ t →
      severityLevel (severityOf s) ≤ severityLevel (severityOf t)) ∧
    (∀ (name : String) (values cur : List ℝ), combinedScore values cur ≤ 1.5 →
      sweepPoint name values cur = none) := by
  have hchar : ∀ s : ℝ,
      (severityOf s = some Severity.high ↔ 3 < s) ∧
      (severityOf s = some Severity.medium ↔ 2 < s ∧ s ≤ 3) ∧
      (severityOf s = some Severity.low ↔ 1.5 < s ∧ s ≤ 2) ∧
      (severityOf s = none ↔ s ≤ 1.5) := by
    intro s
    unfold severityOf
    split_ifs with h1 h2 h3 <;>
      refine ⟨?_, ?_, ?_, ?_⟩ <;> simp_all <;>
        first
          | linarith
          | (constructor <;> linarith)
          | (intro hx; linarith)
  refine ⟨hchar, ?_, ?_⟩
  · intro s t hst
    unfold severityOf
    split_ifs <;> simp [severityLevel] <;> linarith
  · intro name values cur h
    unfold sweepPoint
    split_ifs with hlen
    · rfl
    · dsimp only
      rw [(hchar (combinedScore values cur)).2.2.2.mpr h]

/-- C5 witness: the theorem applied at scores 2.5 (medium), 1.2 (no
anomaly) and at the monotonicity instance 1.6 <= 2.5, and the exclusion
instance on an empty point. -/
theorem severity_classification_witness :
    (severityOf 2.5 = some Severity.medium ∧ severityOf 1.2 = none) ∧
    ((1.6:ℝ) ≤ 2.5 ∧
      severityLevel (severityOf 1.6) ≤ severityLevel (severityOf 2.5)) ∧
    (combinedScore [] [] ≤ 1.5 ∧ sweepPoint "PT01" [] [] = none) := by
  have hcomb : combinedScore ([] : List ℝ) [] ≤ 1.5 := by
    unfold combinedScore aiScore statsScore predict_current
    norm_num [sampleStd, mean]
  refine ⟨⟨?_, ?_⟩, ⟨by norm_num, ?_⟩, hcomb, ?_⟩
  · exact (severity_classification.1 2.5).2.1.mpr (by norm_num)
  · exact (severity_classification.1 1.2).2.2.2.mpr (by norm_num)
  · exact severity_classification.2.1 1.6 2.5 (by norm_num)
  · exact severity_classification.2.2 "PT01" [] [] hcomb

/-- C6: when `predict_current` succeeds, its residual is the absolute
difference between the latest value and the mean of all values but the last,
and its uncertainty is the (population) standard deviation of the window floored
at 0.1 when that is zero; the model score of the sweep is
`residual / uncertainty`, the combined score is
`max(stats_score, ai_score)`, and when no model score is available the
combined score is the statistical score alone. -/
theorem model_score_combination :
    (∀ cur : List ℝ, 5 ≤ cur.length →
      predict_current cur = some
        { residual := |cur.getLastD 0 - mean cur.dropLast|
          uncertainty := if popStd cur > 0 then popStd cur else 0.1 }) ∧
    (∀ (cur : List ℝ) (p : CurrentPrediction), predict_current cur = some p →
      aiScore cur = p.residual / p.uncertainty) ∧
    (∀ values cur : List ℝ,
      combinedScore values cur = max (statsScore values) (aiScore cur)) ∧
    (∀ values cur : List ℝ, predict_current cur = none →
      combinedScore values cur = statsScore values) := by
  refine ⟨?_, ?_, fun _ _ => rfl, ?_⟩
  · intro cur h
    unfold predict_current
    rw [if_neg (Nat.not_lt.mpr h)]
  · intro cur p h
    unfold aiScore
    rw [h]
  · intro values cur h
    unfold combinedScore aiScore
    rw [h]
    exact max_eq_left (statsScore_nonneg values)

/-- C6 witness: the theorem instantiated at the constant window
`[0,0,0,0,0]` (succeeding `predict_current`) and at the empty window (no
model score available). -/
theorem model_score_combination_witness :
    (5 ≤ ([0,0,0,0,0] : List ℝ).length ∧
      predict_current ([0,0,0,0,0] : List ℝ) = some
        { residual := |([0,0,0,0,0] : List ℝ).getLastD 0 - mean ([0,0,0,0,0] : List ℝ).dropLast|
          uncertainty := if popStd ([0,0,0,0,0] : List ℝ) > 0
            then popStd ([0,0,0,0,0] : List ℝ) else 0.1 }) ∧
    (predict_current ([] : List ℝ) = none ∧
      combinedScore [] [] = statsScore []) := by
  have hnone : predict_current ([] : List ℝ) = none := by
    unfold predict_current
    norm_num
  exact ⟨⟨by norm_num, model_score_combination.1 [0,0,0,0,0] (by norm_num)⟩,
    hnone, model_score_combination.2.2.2 [] [] hnone⟩

/-- C10: whenever `predict_current` returns a result, its uncertainty is
strictly positive (hence nonzero), so the division `residual / uncertainty` in the sweep
never divides by zero. -/
theorem uncertainty_positive (cur : List ℝ) (p : CurrentPrediction)
    (h : predict_current cur = some p) :
    0 < p.uncertainty ∧ p.uncertainty ≠ 0 := by
  unfold predict_current at h
  split_ifs at h
  dsimp only at h
  injection h with h
  subst h
  dsimp only
  split_ifs with hu
  · exact ⟨hu, ne_of_gt hu⟩
  · norm_num

/-- C10 witness: the theorem instantiated at the constant window
`[0,0,0,0,0]`, whose uncertainty is the 0.1 floor. -/
theorem uncertainty_positive_witness :
    predict_current ([0,0,0,0,0] : List ℝ) = some ⟨0, 0.1⟩ ∧
    0 < (CurrentPrediction.mk 0 0.1).uncertainty ∧
    (CurrentPrediction.mk 0 0.1).uncertainty ≠ 0 := by
  have heval : predict_current ([0,0,0,0,0] : List ℝ) = some ⟨0, 0.1⟩ := by
    have hgl : List.getLastD ([0,0,0,0,0] : List ℝ) 0 = 0 := rfl
    have hdl : ([0,0,0,0,0] : List ℝ).dropLast = [0,0,0,0] := rfl
    have hps : popStd ([0,0,0,0,0] : List ℝ) = 0 := by
      rw [show ([0,0,0,0,0] : List ℝ) = List.replicate 5 0 from rfl]
      exact popStd_replicate_zero 5
    have hm : mean ([0,0,0,0] : List ℝ) = 0 := by
      rw [show ([0,0,0,0] : List ℝ) = List.replicate 4 0 from rfl]
      exact mean_replicate 4 0 (by norm_num)
    unfold predict_current
    rw [if_neg (by norm_num)]
    dsimp only
    rw [hgl, hdl, hm, hps]
    norm_num
  have h := uncertainty_positive [0,0,0,0,0] ⟨0, 0.1⟩ heval
  exact ⟨heval, h.1, h.2⟩

/-- C7: the verdict list of the sweep is sorted ascending by severity rank (every
high entry before every medium entry before every low entry) and is a
permutation of the per-point verdicts; `total_anomalies` is its length, and
each `by_severity` count is the number of verdicts in the returned list
carrying that severity. -/
theorem sweep_sorted_counts (pts : List (String × List ℝ × List ℝ)) :
    List.Sorted bySeverityRank (detectAnomalies pts).anomalies ∧
    List.Perm (detectAnomalies pts).anomalies
      (pts.filterMap (fun p => sweepPoint p.1 p.2.1 p.2.2)) ∧
    (detectAnomalies pts).total_anomalies = (detectAnomalies pts).anomalies.length ∧
    (detectAnomalies pts).by_severity_high =
      ((detectAnomalies pts).anomalies.filter
        (fun a => a.severity = Severity.high)).length ∧
    (detectAnomalies pts).by_severity_medium =
      ((detectAnomalies pts).anomalies.filter
        (fun a => a.severity = Severity.medium)).length ∧
    (detectAnomalies pts).by_severity_low =
      ((detectAnomalies pts).anomalies.filter
        (fun a => a.severity = Severity.low)).length := by
  unfold detectAnomalies
  dsimp only
  exact ⟨List.sorted_insertionSort bySeverityRank _,
    List.perm_insertionSort bySeverityRank _, rfl, rfl, rfl, rfl⟩

/-- C9: for a point name absent from the store, `get_point_data` returns the
empty series rather than raising, and a forecast on that point fails with the
insufficient-data error, not a store-level error. -/
theorem unknown_point_behavior (noise : ℕ → ℝ) (store : List (String × List ℝ))
    (name : String) (limit steps : ℕ) (h : store.lookup name = none) :
    get_point_data store name limit = [] ∧
    predict noise (get_point_data store name limit) steps
      = .error "Not enough data" := by
  have h1 : get_point_data store name limit = [] := by
    unfold get_point_data
    rw [h]
  refine ⟨h1, ?_⟩
  rw [h1]
  unfold predict
  norm_num

/-- C9 witness: the theorem instantiated at a one-point store queried with an
unknown name. -/
theorem unknown_point_behavior_witness :
    List.lookup "PT99" [("PT01", ([1,2,3,4,5] : List ℝ))] = none ∧
    (get_point_data [("PT01", ([1,2,3,4,5] : List ℝ))] "PT99" 100 = [] ∧
      predict (fun _ => 0) (get_point_data [("PT01", ([1,2,3,4,5] : List ℝ))] "PT99" 100) 30
        = .error "Not enough data") := by
  have h : List.lookup "PT99" [("PT01", ([1,2,3,4,5] : List ℝ))] = none := by
    simp [List.lookup]
  exact ⟨h, unknown_point_behavior (fun _ => 0) _ "PT99" 100 30 h⟩

/-! ### Realtime status: code branch structure vs the spec state machine -/

lemma z_abs_le (num T : ℝ) (hT : 0 ≤ T) (h : num ^ 2 ≤ 2.25 * T) :
    |num / Real.sqrt T| ≤ 1.5 := by
  rcases eq_or_lt_of_le hT with h0 | hpos
  · rw [← h0, Real.sqrt_zero, div_zero, abs_zero]
    norm_num
  · have hs : 0 < Real.sqrt T := Real.sqrt_pos.mpr hpos
    rw [abs_div, abs_of_pos hs, div_le_iff hs]
    have h1 : |num| = Real.sqrt (num ^ 2) := (Real.sqrt_sq_eq_abs num).symm
    rw [h1]
    calc Real.sqrt (num ^ 2) ≤ Real.sqrt (2.25 * T) := Real.sqrt_le_sqrt h
      _ = Real.sqrt 2.25 * Real.sqrt T := Real.sqrt_mul (by norm_num) T
      _ = 1.5 * Real.sqrt T := by
          rw [show (2.25:ℝ) = 1.5 ^ 2 by norm_num, Real.sqrt_sq (by norm_num)]

lemma abs_z_sample_le (l : List ℝ)
    (h : (l.getLastD 0 - mean l) ^ 2 ≤
      2.25 * ((l.map (fun v => (v - mean l) ^ 2)).sum / ((l.length : ℝ) - 1))) :
    |(l.getLastD 0 - mean l) / sampleStd l| ≤ 1.5 := by
  unfold sampleStd
  apply z_abs_le _ _ ?_ h
  have hS : 0 ≤ (l.map (fun v => (v - mean l) ^ 2)).sum := by
    apply List.sum_nonneg
    intro x hx
    simp only [List.mem_map] at hx
    obtain ⟨v, _, rfl⟩ := hx
    positivity
  rcases l with _ | ⟨a, t⟩
  · simp
  · apply div_nonneg hS
    simp only [List.length_cons]
    push_cast
    linarith [Nat.cast_nonneg (α := ℝ) t.length]

lemma spec_normal_of_z_le (values : List ℝ) (hne : values.length ≠ 0)
    (hz : |(values.getLastD 0 - mean values) / sampleStd values| ≤ 1.5) :
    realtimeStatusSpec values = .normal := by
  unfold realtimeStatusSpec
  rw [if_neg hne]
  dsimp only
  rw [if_neg (not_lt.mpr (hz.trans (by norm_num))), if_neg (not_lt.mpr hz)]

/-- C8: the realtime-status classifier is exactly the coarser spec
four-state machine: `offline` for a point with no readings, else the
`z > 3 -> danger`, `z > 1.5 -> warning`, else `normal` thresholds on the
plain z-score — the extra guards in the code (at least 5 readings, positive
standard deviation) never change the outcome, because with at most 4
observations the sample z-score of the last value cannot exceed 1.5.  No
model-based term or combined score enters. -/
theorem realtime_status_matches_spec (values : List ℝ) :
    realtimeStatus values = realtimeStatusSpec values := by
  have short_code : ∀ l : List ℝ, l.length ≠ 0 → l.length < 5 →
      realtimeStatus l = .normal := by
    intro l h0 h5
    unfold realtimeStatus
    rw [if_neg h0, if_neg (by omega)]
  match values with
  | [] => rfl
  | [a] =>
    have hz : |(List.getLastD [a] 0 - mean [a]) / sampleStd [a]| ≤ 1.5 := by
      have hm : mean [a] = a := by
        simp [mean]
      have hl : List.getLastD [a] 0 = a := rfl
      rw [hl, hm, sub_self, zero_div, abs_zero]
      norm_num
    rw [short_code [a] (by simp) (by simp), spec_normal_of_z_le [a] (by simp) hz]
  | [a, b] =>
    have hz : |(List.getLastD [a, b] 0 - mean [a, b]) / sampleStd [a, b]| ≤ 1.5 := by
      apply abs_z_sample_le
      have hl : List.getLastD [a, b] 0 = b := rfl
      rw [hl]
      simp only [mean, List.sum_cons, List.sum_nil, List.map_cons, List.map_nil,
        List.length_cons, List.length_nil]
      push_cast
      nlinarith [sq_nonneg (a - b), sq_nonneg (a + b)]
    rw [short_code [a, b] (by simp) (by simp), spec_normal_of_z_le [a, b] (by simp) hz]
  | [a, b, c] =>
    have hz : |(List.getLastD [a, b, c] 0 - mean [a, b, c]) / sampleStd [a, b, c]| ≤ 1.5 := by
      apply abs_z_sample_le
      have hl : List.getLastD [a, b, c] 0 = c := rfl
      rw [hl]
      simp only [mean, List.sum_cons, List.sum_nil, List.map_cons, List.map_nil,
        List.length_cons, List.length_nil]
      push_cast
      nlinarith [sq_nonneg (a - (a + (b + (c + 0))) / 3), sq_nonneg (b - (a + (b + (c + 0))) / 3),
        sq_nonneg (c - (a + (b + (c + 0))) / 3)]
    rw [short_code [a, b, c] (by simp) (by simp),
      spec_normal_of_z_le [a, b, c] (by simp) hz]
  | [a, b, c, d] =>
    have hz : |(List.getLastD [a, b, c, d] 0 - mean [a, b, c, d]) / sampleStd [a, b, c, d]| ≤ 1.5 := by
      apply abs_z_sample_le
      have hl : List.getLastD [a, b, c, d] 0 = d := rfl
      rw [hl]
      simp only [mean, List.sum_cons, List.sum_nil, List.map_cons, List.map_nil,
        List.length_cons, List.length_nil]
      push_cast
      nlinarith [sq_nonneg (a - b), sq_nonneg (b - c), sq_nonneg (a - c),
        sq_nonneg (a + b + c - 3 * d)]
    rw [short_code [a, b, c, d] (by simp) (by simp),
      spec_normal_of_z_le [a, b, c, d] (by simp) hz]
  | a :: b :: c :: d :: e :: rest =>
    have hne : (a :: b :: c :: d :: e :: rest).length ≠ 0 := by simp
    have h5 : 5 ≤ (a :: b :: c :: d :: e :: rest).length := by
      simp only [List.length_cons]
      omega
    unfold realtimeStatus realtimeStatusSpec
    rw [if_neg hne, if_neg hne, if_pos h5]
    dsimp only
    by_cases hσ : sampleStd (a :: b :: c :: d :: e :: rest) > 0
    · rw [if_pos hσ]
    · rw [if_neg hσ]
      have hσ0 : sampleStd (a :: b :: c :: d :: e :: rest) = 0 :=
        le_antisymm (not_lt.mp hσ) (sampleStd_nonneg _)
      rw [hσ0]
      simp
      norm_num

end WesdomScreen
